import Mathlib

/-
Verification of the dues/payment ledger core of `src/maintenance_tracker.py`
(katzByte007/Society_maintainance).

The embedding below models the resident dataframe (`st.session_state.residents`)
as a `List Resident`, one record per row with the columns created by
`load_data` (lines 43-57).  Dates of the form produced by
`datetime.now().strftime(perc-Y-m-d)` are modelled by `Date`; the stored
`Last Payment Date` cell is `Option String` (the source stores either `None`
or a formatted string).  Money amounts are `Int` (pandas integer cells).
Python exceptions are modelled with `Except String` results; the in-place
sweep over the dataframe is modelled as a fold that, on an exception,
returns the already-mutated prefix together with the raised message, which is
exactly the session state Python leaves behind when `check_late_payments`
raises mid-loop.
-/

namespace SocietyMaintenance

/-- A calendar date as used by the tracker (year, month, day-of-month). -/
structure Date where
  year : Nat
  month : Nat
  day : Nat
deriving DecidableEq, Repr

/-- One row of the residents dataframe, with the columns seeded by
`load_data` (src/maintenance_tracker.py lines 43-57). -/
structure Resident where
  house : Nat
  name : String
  phone : String
  email : String
  paid : Bool
  lastPaymentDate : Option String
  lastPaymentMonth : Option String
  paymentHistory : List String
  maintenanceAmount : Int
  extraCharges : Int
  lateFees : Int
  totalDues : Int
  paymentStatus : String
deriving DecidableEq, Repr

/-- `LATE_FEE = 1000` (line 11). -/
def LATE_FEE : Int := 1000

/-- `FIRST_DUE_DATE = 10` (line 12), a day-of-month threshold. -/
def FIRST_DUE_DATE : Nat := 10

/-- `FINAL_DUE_DATE = 28` (line 13); declared in the source, unused by the core. -/
def FINAL_DUE_DATE : Nat := 28

/-- Split a character list at every occurrence of a separator character
(keeping empty fields); structurally recursive so it evaluates in the
kernel. -/
def splitFields (sep : Char) : List Char → List (List Char)
  | [] => [[]]
  | c :: cs =>
    match splitFields sep cs with
    | f :: rest => if c = sep then [] :: f :: rest else (c :: f) :: rest
    | [] => if c = sep then [[], []] else [[c]]

/-- Read a nonempty all-digit field as a number; anything else is a parse
failure. -/
def digitsToNat? (cs : List Char) : Option Nat :=
  if !cs.isEmpty && cs.all (fun c => c.isDigit) then
    some (cs.foldl (fun n c => n * 10 + (c.toNat - 48)) 0)
  else
    none

/-- `datetime.strptime(s, perc-Y-m-d)` (line 80): three dash-separated decimal
fields, month in 1..12 and day in 1..31; any other shape raises `ValueError`,
modelled as `none`.  (Day-in-specific-month validity, which strptime also
checks, is not needed by any claim and is not modelled.) -/
def parseDate (s : String) : Option Date :=
  match splitFields '-' s.toList with
  | [y, m, d] =>
    match digitsToNat? y, digitsToNat? m, digitsToNat? d with
    | some yn, some mn, some dn =>
      if 1 ≤ mn ∧ mn ≤ 12 ∧ 1 ≤ dn ∧ dn ≤ 31 then some ⟨yn, mn, dn⟩ else none
    | _, _, _ => none
  | _ => none

/-- `last_payment_date.replace(day=1) < current_month` (line 84): both sides
have their day forced to 1, so the comparison is lexicographic on
(year, month). -/
def monthBefore (d t : Date) : Bool :=
  decide (d.year < t.year ∨ (d.year = t.year ∧ d.month < t.month))

/-- The message of the `ValueError` that `datetime.strptime` raises on a
malformed date string (line 80 has no try/except around it). -/
def valueErrorMsg : String := "ValueError: time data does not match the expected date layout"

/-- The delinquency test of `check_late_payments` (lines 78-84): a string
`Last Payment Date` is parsed first (raising on malformed input, line 80);
the unit is delinquent when the cell is `None` or the parsed date falls in a
month strictly before the current one. -/
def duesDelinquent (today : Date) (u : Resident) : Except String Bool :=
  match u.lastPaymentDate with
  | none => .ok true
  | some s =>
    match parseDate s with
    | none => .error valueErrorMsg
    | some d => .ok (monthBefore d today)

/-- The two assignments of the sweep body (lines 87-92): set `Late Fees` to
the flat `LATE_FEE` and recompute `Total Dues` from the row's (unmutated)
`Maintenance Amount` and `Extra Charges`.  No other column is written;
in particular `Payment Status` is left alone. -/
def applyLateFee (u : Resident) : Resident :=
  { u with lateFees := LATE_FEE
           totalDues := u.maintenanceAmount + u.extraCharges + LATE_FEE }

/-- One iteration of the `check_late_payments` loop (lines 77-92) for a
single row: parse/classify, and if the unit is delinquent and
`today.day > FIRST_DUE_DATE`, apply the late fee; otherwise leave the row
unchanged.  A parse failure propagates as the raised exception. -/
def sweepOne (today : Date) (u : Resident) : Except String Resident :=
  match duesDelinquent today u with
  | .error e => .error e
  | .ok true =>
    if FIRST_DUE_DATE < today.day then .ok (applyLateFee u) else .ok u
  | .ok false => .ok u

/-- `PaymentTracker.check_late_payments` (lines 72-92): the in-place pass
over all rows.  The result is the dataframe after the call together with the
message of the exception that aborted it, if any: rows before the failing row
keep their already-applied mutations, the failing row and all later rows are
untouched — exactly the session state Python leaves when `strptime` raises
mid-loop. -/
def check_late_payments (today : Date) : List Resident → List Resident × Option String
  | [] => ([], none)
  | u :: rest =>
    match sweepOne today u with
    | .ok v =>
      let r := check_late_payments today rest
      (v :: r.1, r.2)
    | .error e => (u :: rest, some e)

/-- The message of the `IndexError` that `.iloc[0]` raises on an empty
selection (line 97 has no emptiness check). -/
def indexErrorMsg : String := "IndexError: single positional indexer is out-of-bounds"

/-- `PaymentTracker.calculate_dues` (lines 94-98): select the first row whose
`House` equals the argument and sum its three charge columns; an absent house
number makes `.iloc[0]` raise `IndexError`. -/
def calculate_dues (houseNumber : Nat) (units : List Resident) : Except String Int :=
  match units.find? (fun u => u.house == houseNumber) with
  | some u => .ok (u.maintenanceAmount + u.extraCharges + u.lateFees)
  | none => .error indexErrorMsg

/-- The history entry appended on payment (line 422):
`f-string of payment_date, a colon, the rupee sign, payment_amount`. -/
def payEntry (date : String) (amount : Int) : String :=
  date ++ ": ₹" ++ toString amount

/-- The per-row mutations of `ResidentInterface.make_payment` on submit
(lines 416-426): set `Paid`, `Last Payment Date`, append one history entry,
and reset `Extra Charges` to 0.  `Late Fees`, `Total Dues`, `Payment Status`
and `Last Payment Month` are NOT written by this function. -/
def payUpdate (date : String) (amount : Int) (u : Resident) : Resident :=
  { u with paid := true
           lastPaymentDate := some date
           paymentHistory := u.paymentHistory ++ [payEntry date amount]
           extraCharges := 0 }

/-- `ResidentInterface.make_payment` (lines 400-431): if some row matches the
house number (`not resident_data.empty`), apply `payUpdate` to every matching
row and report success (`none`); otherwise mutate nothing and report the
`Invalid house number` error (line 431). -/
def make_payment (houseNumber : Nat) (amount : Int) (date : String)
    (units : List Resident) : List Resident × Option String :=
  if units.any (fun u => u.house == houseNumber) then
    (units.map (fun u => if u.house == houseNumber then payUpdate date amount u else u),
     none)
  else
    (units, some "Invalid house number")

/-- One seeded row of the `required_columns` table of `load_data`
(lines 43-57), for house number `i`. -/
def seedResident (i : Nat) : Resident :=
  { house := i
    name := "Resident " ++ toString i
    phone := "1234567890"
    email := "resident@example.com"
    paid := false
    lastPaymentDate := none
    lastPaymentMonth := none
    paymentHistory := []
    maintenanceAmount := 2000
    extraCharges := 0
    lateFees := 0
    totalDues := 0
    paymentStatus := "Unpaid" }

/-- The 40-row seed table `required_columns` would build: houses 1..40 with
the defaults of lines 43-57. -/
def seedResidents : List Resident :=
  (List.range 40).map (fun i => seedResident (i + 1))

/-- `load_data` (lines 38-64).  `some df` models an existing file read into a
dataframe that already has every required column (for such a file the
backfill loop of lines 59-61 writes nothing, so the data is returned as is).
`none` models the first run with no file: the `else` branch (line 63)
evaluates `pd.DataFrame(required_columns)`, but `required_columns` is bound
only inside the `if os.path.exists(...)` branch, so Python raises
`NameError` instead of seeding the table. -/
def load_data (existing : Option (List Resident)) : Except String (List Resident) :=
  match existing with
  | some df => .ok df
  | none => .error "NameError: name required_columns is not defined"

/-- A unit in the state of spec Scenario B: seeded defaults, then the sweep
has applied the flat late fee (lateFee 1000, totalDues 3000). -/
def unitScenarioB : Resident :=
  { seedResident 5 with lateFees := 1000, totalDues := 3000 }

/-- A unit with a pending surcharge and a late fee, with `Total Dues`
reconciled (3500 = 2000 + 500 + 1000). -/
def unitWithExtras : Resident :=
  { seedResident 7 with extraCharges := 500, lateFees := 1000, totalDues := 3500 }

/-- A unit whose stored `Last Payment Date` cell is an unparsable string. -/
def unitMalformedDate : Resident :=
  { seedResident 3 with lastPaymentDate := some "not-a-date" }

/-- The delinquency hypothesis as the spec states it, on the raw record: no
payment on file, or the recorded payment date parses and falls in an earlier
billing month. -/
def delinquentRecord (today : Date) (u : Resident) : Prop :=
  u.lastPaymentDate = none ∨
    ∃ s d, u.lastPaymentDate = some s ∧ parseDate s = some d ∧ monthBefore d today = true

/-- Applying the flat fee twice is the same as applying it once: the second
application writes the same `lateFees` and recomputes `totalDues` from the
unchanged `maintenanceAmount` and `extraCharges`. -/
lemma applyLateFee_idem (u : Resident) : applyLateFee (applyLateFee u) = applyLateFee u := rfl

/-- The fee assignments do not touch the `Last Payment Date` cell. -/
lemma applyLateFee_lastPaymentDate (u : Resident) :
    (applyLateFee u).lastPaymentDate = u.lastPaymentDate := rfl

/-- Delinquency classification only reads `Last Payment Date`, which the fee
assignments leave alone. -/
lemma duesDelinquent_applyLateFee (today : Date) (u : Resident) :
    duesDelinquent today (applyLateFee u) = duesDelinquent today u := rfl

/-- A unit delinquent in the sense of the spec is classified `ok true` by the
embedded delinquency test. -/
lemma duesDelinquent_of_record (today : Date) (u : Resident)
    (hdel : delinquentRecord today u) : duesDelinquent today u = .ok true := by
  rcases hdel with h | ⟨s, d, hs, hp, hm⟩
  · simp [duesDelinquent, h]
  · simp [duesDelinquent, hs, hp, hm]

/-- On a delinquent unit after the first due day, one sweep iteration applies
exactly the two fee assignments. -/
lemma sweepOne_delinquent_applies (today : Date) (u : Resident)
    (hdel : delinquentRecord today u) (hday : FIRST_DUE_DATE < today.day) :
    sweepOne today u = .ok (applyLateFee u) := by
  simp [sweepOne, duesDelinquent_of_record today u hdel, hday]

/-- A successful sweep iteration either leaves the row unchanged or applies
the fee assignments. -/
lemma sweepOne_ok_cases (today : Date) {u v : Resident}
    (h : sweepOne today u = .ok v) : v = u ∨ v = applyLateFee u := by
  cases hd : duesDelinquent today u with
  | error e => simp [sweepOne, hd] at h
  | ok b =>
    cases b with
    | false =>
      left
      have := h
      simp [sweepOne, hd] at this
      exact this.symm
    | true =>
      by_cases hday : FIRST_DUE_DATE < today.day
      · right
        have := h
        simp [sweepOne, hd, hday] at this
        exact this.symm
      · left
        have := h
        simp [sweepOne, hd, hday] at this
        exact this.symm

/-- A second sweep iteration on the result of a successful one is a no-op. -/
lemma sweepOne_ok_idem (today : Date) {u v : Resident}
    (h : sweepOne today u = .ok v) : sweepOne today v = .ok v := by
  cases hd : duesDelinquent today u with
  | error e => simp [sweepOne, hd] at h
  | ok b =>
    cases b with
    | false =>
      have hv : u = v := by simpa [sweepOne, hd] using h
      subst hv
      simp [sweepOne, hd]
    | true =>
      by_cases hday : FIRST_DUE_DATE < today.day
      · have hv : applyLateFee u = v := by simpa [sweepOne, hd, hday] using h
        subst hv
        have hd2 : duesDelinquent today (applyLateFee u) = .ok true := by
          rw [duesDelinquent_applyLateFee, hd]
        simp [sweepOne, hd2, hday, applyLateFee_idem]
      · have hv : u = v := by simpa [sweepOne, hd, hday] using h
        subst hv
        simp [sweepOne, hd, hday]

/-- Agreement on every column the sweep is not supposed to write: everything
except `Late Fees` and `Total Dues`. -/
def sweepFrame (u v : Resident) : Prop :=
  v.house = u.house ∧ v.name = u.name ∧ v.phone = u.phone ∧ v.email = u.email ∧
  v.paid = u.paid ∧ v.lastPaymentDate = u.lastPaymentDate ∧
  v.lastPaymentMonth = u.lastPaymentMonth ∧ v.paymentHistory = u.paymentHistory ∧
  v.maintenanceAmount = u.maintenanceAmount ∧ v.extraCharges = u.extraCharges ∧
  v.paymentStatus = u.paymentStatus

lemma sweepFrame_refl (u : Resident) : sweepFrame u u :=
  ⟨rfl, rfl, rfl, rfl, rfl, rfl, rfl, rfl, rfl, rfl, rfl⟩

lemma sweepFrame_applyLateFee (u : Resident) : sweepFrame u (applyLateFee u) :=
  ⟨rfl, rfl, rfl, rfl, rfl, rfl, rfl, rfl, rfl, rfl, rfl⟩

lemma sweepOne_frame (today : Date) {u v : Resident}
    (h : sweepOne today u = .ok v) : sweepFrame u v := by
  rcases sweepOne_ok_cases today h with hv | hv <;> rw [hv]
  · exact sweepFrame_refl u
  · exact sweepFrame_applyLateFee u

/-- C4 (confirmed): for every ledger state and date, running the late-fee
sweep twice in succession with no intervening payment produces exactly the
same ledger state (and the same raised error, if any) as running it once:
the fee assignments are value-based, so re-runs do not drift any field. -/
theorem check_late_payments_idempotent (today : Date) (units : List Resident) :
    check_late_payments today (check_late_payments today units).1 =
      check_late_payments today units := by
  induction units with
  | nil => rfl
  | cons u rest ih =>
    cases h : sweepOne today u with
    | ok v =>
      have hv := sweepOne_ok_idem today h
      simp [check_late_payments, h, hv, ih]
    | error e =>
      simp [check_late_payments, h]

/-- C9 (confirmed): the sweep mutates at most `Late Fees` and `Total Dues` of
each row; `Paid`, `Payment Status`, `Last Payment Date`, `Payment History`,
`Maintenance Amount`, `Extra Charges` and the contact columns are unchanged,
row by row. -/
theorem check_late_payments_frame (today : Date) (units : List Resident) :
    List.Forall₂ sweepFrame units (check_late_payments today units).1 := by
  induction units with
  | nil => simp [check_late_payments]
  | cons u rest ih =>
    cases h : sweepOne today u with
    | ok v =>
      simp only [check_late_payments, h]
      exact List.Forall₂.cons (sweepOne_frame today h) ih
    | error e =>
      simp only [check_late_payments, h]
      exact List.Forall₂.cons (sweepFrame_refl u)
        (List.forall₂_same.mpr (fun x _ => sweepFrame_refl x))

/-- C8 (confirmed): on a day of month at or before `FIRST_DUE_DATE`, one
sweep iteration leaves a delinquent unit completely unchanged: no fee, no
status change, no field written. -/
theorem sweep_on_or_before_due_day_no_change (today : Date) (u : Resident)
    (hday : today.day ≤ FIRST_DUE_DATE) (hdel : delinquentRecord today u) :
    sweepOne today u = .ok u := by
  have hd := duesDelinquent_of_record today u hdel
  have hn : ¬ FIRST_DUE_DATE < today.day := not_lt.mpr hday
  simp [sweepOne, hd, hn]

/-- Witness for C8: a fresh seeded unit swept on cycle-day 5 is untouched. -/
theorem sweep_on_or_before_due_day_no_change_witness :
    sweepOne ⟨2024, 5, 5⟩ (seedResident 5) = .ok (seedResident 5) :=
  sweep_on_or_before_due_day_no_change ⟨2024, 5, 5⟩ (seedResident 5) (by decide) (Or.inl rfl)

/-- C5 counterexample: a unit whose `Last Payment Date` cell is the string
`not-a-date` makes the sweep raise a `ValueError` instead of treating the
value as absent; the unit is not classified and gets no fee. -/
theorem sweep_crashes_on_malformed_date :
    check_late_payments ⟨2024, 5, 15⟩ [unitMalformedDate] =
      ([unitMalformedDate], some valueErrorMsg) := by
  rfl

/-- C5 (amended): a malformed `Last Payment Date` string is parsed by
`strptime` with no try/except, so the sweep raises and aborts at that row,
leaving it and every later row untouched, instead of degrading to "treat as
absent". -/
theorem sweep_malformed_date_raises (today : Date) (u : Resident)
    (rest : List Resident) (s : String)
    (hs : u.lastPaymentDate = some s) (hp : parseDate s = none) :
    check_late_payments today (u :: rest) = (u :: rest, some valueErrorMsg) := by
  simp [check_late_payments, sweepOne, duesDelinquent, hs, hp]

/-- Witness for C5's amended statement at a concrete malformed cell. -/
theorem sweep_malformed_date_raises_witness :
    check_late_payments ⟨2024, 5, 15⟩ [unitMalformedDate, seedResident 1] =
      ([unitMalformedDate, seedResident 1], some valueErrorMsg) :=
  sweep_malformed_date_raises ⟨2024, 5, 15⟩ unitMalformedDate [seedResident 1]
    "not-a-date" rfl (by decide)

/-- C3 counterexample: sweeping a delinquent seeded unit on cycle-day 15
applies the fee but leaves `Payment Status` at `Unpaid`; the sweep never
writes the status column, so it is not set to `Late`. -/
theorem sweep_leaves_status_counterexample :
    (sweepOne ⟨2024, 5, 15⟩ (seedResident 5)).toOption.map Resident.lateFees = some 1000 ∧
    (sweepOne ⟨2024, 5, 15⟩ (seedResident 5)).toOption.map Resident.paymentStatus =
      some "Unpaid" ∧
    some "Unpaid" ≠ some "Late" := by
  refine ⟨rfl, rfl, by decide⟩

/-- C3 (amended): for every delinquent unit swept strictly after
`FIRST_DUE_DATE`, the sweep sets `lateFee = 1000` and
`totalDues = maintenanceAmount + extraCharges + 1000`, but leaves
`paymentStatus` unchanged — it is not set to `Late`. -/
theorem sweep_sets_fee_and_dues_not_status (today : Date) (u v : Resident)
    (hdel : delinquentRecord today u) (hday : FIRST_DUE_DATE < today.day)
    (hv : sweepOne today u = .ok v) :
    v.lateFees = 1000 ∧
    v.totalDues = u.maintenanceAmount + u.extraCharges + 1000 ∧
    v.paymentStatus = u.paymentStatus := by
  have h := sweepOne_delinquent_applies today u hdel hday
  rw [hv] at h
  injection h with h2
  subst h2
  simp [applyLateFee, LATE_FEE]

/-- Witness for C3's amended statement on the seeded unit 5 at cycle-day 15. -/
theorem sweep_sets_fee_and_dues_not_status_witness :
    (applyLateFee (seedResident 5)).lateFees = 1000 ∧
    (applyLateFee (seedResident 5)).totalDues =
      (seedResident 5).maintenanceAmount + (seedResident 5).extraCharges + 1000 ∧
    (applyLateFee (seedResident 5)).paymentStatus = (seedResident 5).paymentStatus :=
  sweep_sets_fee_and_dues_not_status ⟨2024, 5, 15⟩ (seedResident 5)
    (applyLateFee (seedResident 5)) (Or.inl rfl) (by decide) rfl

/-- C1 counterexample: a unit whose fields reconcile (3500 = 2000 + 500 +
1000) stops satisfying the dues equation after `make_payment`, which resets
`Extra Charges` without recomputing `Total Dues` or clearing `Late Fees`. -/
theorem payment_breaks_dues_equation :
    unitWithExtras.totalDues =
      unitWithExtras.maintenanceAmount + unitWithExtras.extraCharges +
        unitWithExtras.lateFees ∧
    (make_payment 7 3000 "2024-05-16" [unitWithExtras]).2 = none ∧
    (make_payment 7 3000 "2024-05-16" [unitWithExtras]).1.map Resident.totalDues =
      [3500] ∧
    (make_payment 7 3000 "2024-05-16" [unitWithExtras]).1.map
      (fun u => u.maintenanceAmount + u.extraCharges + u.lateFees) = [3000] ∧
    (3500 : Int) ≠ 3000 := by
  refine ⟨rfl, rfl, rfl, rfl, by decide⟩

/-- C1 (amended): the dues equation
`totalDues = maintenanceAmount + extraCharges + lateFee` is established for a
unit at the moment the sweep applies the late fee to it; it is not an
invariant preserved by `make_payment` (which resets `Extra Charges` without
recomputing `Total Dues`) nor established by the seed (which sets
`Total Dues` to 0). -/
theorem sweep_establishes_dues_equation (today : Date) (u v : Resident)
    (hdel : delinquentRecord today u) (hday : FIRST_DUE_DATE < today.day)
    (hv : sweepOne today u = .ok v) :
    v.totalDues = v.maintenanceAmount + v.extraCharges + v.lateFees := by
  have h := sweepOne_delinquent_applies today u hdel hday
  rw [hv] at h
  injection h with h2
  subst h2
  simp [applyLateFee]

/-- Witness for C1's amended statement on the seeded unit 8 at cycle-day 15. -/
theorem sweep_establishes_dues_equation_witness :
    (applyLateFee (seedResident 8)).totalDues =
      (applyLateFee (seedResident 8)).maintenanceAmount +
        (applyLateFee (seedResident 8)).extraCharges +
        (applyLateFee (seedResident 8)).lateFees :=
  sweep_establishes_dues_equation ⟨2024, 6, 15⟩ (seedResident 8)
    (applyLateFee (seedResident 8)) (Or.inl rfl) (by decide) rfl

/-- For an in-range index, reading the mapped list is mapping the read
element; the defaults are irrelevant. -/
lemma getD_map_of_lt {α β : Type} (f : α → β) (l : List α) (i : Nat)
    (hi : i < l.length) (d : α) (e : β) :
    (l.map f).getD i e = f (l.getD i d) := by
  simp [List.getD_eq_getElem?_getD, List.getElem?_map, List.getElem?_eq_getElem hi]

/-- An in-range `getD` read is a member of the list. -/
lemma getD_mem_of_lt {α : Type} (l : List α) (i : Nat) (hi : i < l.length) (d : α) :
    l.getD i d ∈ l := by
  rw [List.getD_eq_getElem?_getD, List.getElem?_eq_getElem hi]
  exact List.getElem_mem hi

/-- C2 counterexample: the unit of Scenario B (lateFee 1000, totalDues 3000)
pays 3000; afterwards `Late Fees` is still 1000 (the claim says it resets to
0) and `Total Dues` is still 3000 while `Maintenance Amount` is 2000 (the
claim says they end up equal). -/
theorem payment_keeps_late_fee_counterexample :
    unitScenarioB.lateFees = 1000 ∧
    (make_payment 5 3000 "2024-05-16" [unitScenarioB]).1.map Resident.lateFees = [1000] ∧
    (make_payment 5 3000 "2024-05-16" [unitScenarioB]).1.map Resident.totalDues = [3000] ∧
    (make_payment 5 3000 "2024-05-16" [unitScenarioB]).1.map Resident.maintenanceAmount =
      [2000] ∧
    (1000 : Int) ≠ 0 ∧ (3000 : Int) ≠ 2000 := by
  refine ⟨rfl, rfl, rfl, rfl, by decide, by decide⟩

/-- C2 (amended): recording a payment on a unit with lateFee 1000 sets
`paid = true`, resets `extraCharges` to 0 and appends exactly one history
entry of the form date, colon, rupee sign, amount — but it leaves `lateFee`
at 1000 and `totalDues` unchanged (so `totalDues` does not become
`maintenanceAmount`). -/
theorem make_payment_on_late_unit (units : List Resident) (hn : Nat) (amount : Int)
    (date : String) (i : Nat) (hi : i < units.length)
    (hh : (units.getD i (seedResident 0)).house = hn)
    (hl : (units.getD i (seedResident 0)).lateFees = 1000) :
    (make_payment hn amount date units).2 = none ∧
    ((make_payment hn amount date units).1.getD i (seedResident 0)).paid = true ∧
    ((make_payment hn amount date units).1.getD i (seedResident 0)).extraCharges = 0 ∧
    ((make_payment hn amount date units).1.getD i (seedResident 0)).paymentHistory =
      (units.getD i (seedResident 0)).paymentHistory ++ [payEntry date amount] ∧
    ((make_payment hn amount date units).1.getD i (seedResident 0)).lateFees = 1000 ∧
    ((make_payment hn amount date units).1.getD i (seedResident 0)).totalDues =
      (units.getD i (seedResident 0)).totalDues := by
  have hh' : (units[i]?.getD (seedResident 0)).house = hn := by simpa using hh
  have hl' : (units[i]?.getD (seedResident 0)).lateFees = 1000 := by simpa using hl
  have hmem : units.getD i (seedResident 0) ∈ units := getD_mem_of_lt units i hi _
  have hany : units.any (fun u => u.house == hn) = true := by
    rw [List.any_eq_true]
    exact ⟨units.getD i (seedResident 0), hmem, by simp [hh']⟩
  have h1 : (make_payment hn amount date units).1 =
      units.map (fun u => if u.house == hn then payUpdate date amount u else u) := by
    unfold make_payment
    rw [if_pos hany]
  have h2 : (make_payment hn amount date units).2 = none := by
    unfold make_payment
    rw [if_pos hany]
  have hkey : (make_payment hn amount date units).1.getD i (seedResident 0) =
      payUpdate date amount (units.getD i (seedResident 0)) := by
    rw [h1, getD_map_of_lt _ units i hi (seedResident 0)]
    simp [hh']
  refine ⟨h2, ?_, ?_, ?_, ?_, ?_⟩ <;> rw [hkey] <;> simp [payUpdate, hl']

/-- Witness for C2's amended statement: the Scenario B unit pays 3000 on
cycle-day 16. -/
theorem make_payment_on_late_unit_witness :
    (make_payment 5 3000 "2024-05-16" [unitScenarioB]).2 = none ∧
    ((make_payment 5 3000 "2024-05-16" [unitScenarioB]).1.getD 0 (seedResident 0)).paid =
      true ∧
    ((make_payment 5 3000 "2024-05-16" [unitScenarioB]).1.getD 0
        (seedResident 0)).extraCharges = 0 ∧
    ((make_payment 5 3000 "2024-05-16" [unitScenarioB]).1.getD 0
        (seedResident 0)).paymentHistory =
      ([unitScenarioB].getD 0 (seedResident 0)).paymentHistory ++
        [payEntry "2024-05-16" 3000] ∧
    ((make_payment 5 3000 "2024-05-16" [unitScenarioB]).1.getD 0
        (seedResident 0)).lateFees = 1000 ∧
    ((make_payment 5 3000 "2024-05-16" [unitScenarioB]).1.getD 0
        (seedResident 0)).totalDues =
      ([unitScenarioB].getD 0 (seedResident 0)).totalDues :=
  make_payment_on_late_unit [unitScenarioB] 5 3000 "2024-05-16" 0
    (by decide) (by decide) (by decide)

/-- C6 (code_bug): on a first run with no durable file, `load_data` does not
return the seeded 40-unit ledger the claim (and the function's own docstring,
"Load or create resident data") describes: the `else` branch reads
`required_columns`, which is bound only inside the file-exists branch, so it
raises `NameError`.  The seed table itself, as written in lines 43-57, does
match the claimed defaults. -/
theorem load_data_missing_file_raises :
    load_data none = Except.error "NameError: name required_columns is not defined" ∧
    seedResidents.map Resident.house = List.range' 1 40 ∧
    (seedResidents.all (fun u =>
      u.paid == false && u.extraCharges == 0 && u.lateFees == 0 && u.totalDues == 0 &&
      u.maintenanceAmount == 2000 && u.paymentStatus == "Unpaid" &&
      u.paymentHistory.isEmpty && u.lastPaymentDate.isNone)) = true := by
  refine ⟨rfl, by decide, by decide⟩

/-- C7 (confirmed): `make_payment` with a house number matching no row takes
the `Invalid house number` branch and returns the ledger exactly as it was:
no partial mutation. -/
theorem make_payment_unknown_house (units : List Resident) (hn : Nat) (amount : Int)
    (date : String) (h : ∀ u ∈ units, u.house ≠ hn) :
    make_payment hn amount date units = (units, some "Invalid house number") := by
  have hany : units.any (fun u => u.house == hn) = false := by
    rw [List.any_eq_false]
    intro u hu
    simp [h u hu]
  simp [make_payment, hany]

/-- Witness for C7 at house number 999 against a one-unit roster. -/
theorem make_payment_unknown_house_witness :
    make_payment 999 3000 "2024-05-16" [unitScenarioB] =
      ([unitScenarioB], some "Invalid house number") :=
  make_payment_unknown_house [unitScenarioB] 999 3000 "2024-05-16" (by decide)

/-- C10 (confirmed): `calculate_dues` returns
`maintenanceAmount + extraCharges + lateFees` of the first row matching the
house number; when no row matches, the `.iloc[0]` lookup raises `IndexError`
instead of returning a not-found error or a default. -/
theorem calculate_dues_spec (units : List Resident) (hn : Nat) :
    ((∃ u ∈ units, u.house = hn) →
      ∃ u ∈ units, u.house = hn ∧
        calculate_dues hn units =
          .ok (u.maintenanceAmount + u.extraCharges + u.lateFees)) ∧
    ((∀ u ∈ units, u.house ≠ hn) →
      calculate_dues hn units = .error indexErrorMsg) := by
  constructor
  · intro hex
    have hsome : (units.find? (fun u => u.house == hn)).isSome := by
      rw [List.find?_isSome]
      obtain ⟨u, hu, hh⟩ := hex
      exact ⟨u, hu, by simp [hh]⟩
    obtain ⟨u, hu⟩ := Option.isSome_iff_exists.mp hsome
    refine ⟨u, List.mem_of_find?_eq_some hu, ?_, ?_⟩
    · simpa using List.find?_some hu
    · simp [calculate_dues, hu]
  · intro hall
    have hnone : units.find? (fun u => u.house == hn) = none := by
      rw [List.find?_eq_none]
      intro u hu
      simp [hall u hu]
    simp [calculate_dues, hnone]

/-- Witness for C10: the no-match side at house number 999. -/
theorem calculate_dues_spec_witness :
    calculate_dues 999 [unitScenarioB] = .error indexErrorMsg :=
  (calculate_dues_spec [unitScenarioB] 999).2 (by decide)

end SocietyMaintenance
